import Mathlib

/-!
Verification of the caching subsystem of the property-listing service
(`properties/utils.py`, `properties/signals.py`, `properties/views.py`,
`properties/models.py`).

Shallow embedding conventions:
* A `Property` row of `models.py` becomes a Lean structure; the decimal
  `price` column is carried as an integer number of cents and the
  `created_at` timestamp (a NOT NULL column filled by `auto_now_add`) as a
  natural number.
* The Django cache (`django.core.cache.cache`, backed by Redis) becomes a
  `Store`: a total map from string keys to optional entries, each entry a
  value together with the TTL it was stored with, plus an availability
  flag for modelling cache outages.
* The database becomes a list of `Property` rows; Django ORM queries
  (`all().order_by(...)`, `filter(location__icontains=...)`, `count()`)
  become list functions.
* Functions that read the cache and possibly the database return the
  value produced, the updated store, and the number of database queries
  issued, so that "the repository is not queried" is a provable statement.
* Python float arithmetic in the metrics code is carried out over `ℚ`;
  at every value the claims mention (80/20 hits/misses, 0/0) the rational
  and the IEEE double results coincide.
-/

/-- A row of the `Property` model (`models.py`): `title`, `description`,
`price` (decimal with 2 fractional digits, embedded as cents), `location`,
`created_at` (set once at creation). `id` is the system-assigned key. -/
structure Property where
  id : Nat
  title : String
  description : String
  price : Int
  location : String
  created_at : Nat
deriving Repr, DecidableEq

/-- A value held in the cache: either a materialized list of properties
(`all_properties`, `properties_location_*`) or an integer count
(`property_count`). Python's cache API is untyped; this sum covers the
value shapes the code stores. -/
inductive CVal where
  | props : List Property → CVal
  | count : Nat → CVal
deriving Repr, DecidableEq

/-- The cache store: `avail` says whether the Redis backend is reachable;
`map` sends each key to `none` (absent) or to the stored value paired with
the TTL in seconds it was stored with. -/
@[ext]
structure Store where
  avail : Bool
  map : String → Option (CVal × Nat)

/-- Modelled from the spec: the failure semantics of the Django cache
boundary (`CACHES` configuration in the project settings, not present
under `src/`) — "CacheUnavailable ... recovered locally by falling through
to the repository for reads": when the store is unreachable, `get`
reports every key absent instead of raising. On an available store this
is a plain keyed lookup, dropping the TTL as `cache.get` does. -/
def Store.get (s : Store) (k : String) : Option CVal :=
  if s.avail then (s.map k).map Prod.fst else none

/-- Modelled from the spec: when the store is unreachable, `set` is a
no-op (cache failures never block the read path). On an available store,
`cache.set(key, value, timeout)` binds the key to the value with the given
TTL. -/
def Store.set (s : Store) (k : String) (v : CVal) (ttl : Nat) : Store :=
  if s.avail then
    { s with map := fun k2 => if k2 = k then some (v, ttl) else s.map k2 }
  else s

/-- Modelled from the spec: when the store is unreachable, `delete` is a
logged no-op reporting `false` ("treating invalidation deletes as no-ops
(logged, not raised)"). On an available store, `cache.delete(key)` removes
the binding and reports whether the key was present; deleting an absent
key is not an error, merely `false`. -/
def Store.del (s : Store) (k : String) : Store × Bool :=
  if s.avail then
    ({ s with map := fun k2 => if k2 = k then none else s.map k2 },
     (s.map k).isSome)
  else (s, false)

/-- The database: the set of persisted `Property` rows. -/
abbrev DB := List Property

/-- `Property.objects.all().order_by('-created_at')`: all rows, newest
first (descending `created_at`). -/
def ordByCreatedDesc (db : DB) : List Property :=
  db.mergeSort (fun a b => b.created_at ≤ a.created_at)

/-- Result of a cache-aside read: the value handed back to the caller,
the store after the call, and how many database queries were issued. -/
structure GetR where
  val : CVal
  store : Store
  dbQueries : Nat

/-- `utils.get_all_properties()`: look up `'all_properties'`; on a non-None
cached value return it untouched (no database query); on a miss query all
rows ordered by `-created_at`, materialize into a list, cache it under
`'all_properties'` with TTL 3600, and return it. -/
def get_all_properties (s : Store) (db : DB) : GetR :=
  match s.get "all_properties" with
  | some v => ⟨v, s, 0⟩
  | none =>
      let properties_list := ordByCreatedDesc db
      ⟨CVal.props properties_list,
       s.set "all_properties" (CVal.props properties_list) 3600, 1⟩

/-- Python's `str.lower()` over the ASCII range: lower-case every
character. -/
def pyLower (x : String) : String :=
  String.mk (x.data.map Char.toLower)

/-- Python's `str.replace(" ", "_")`: the pattern is the single character
`' '`, so the call substitutes each space by an underscore, character by
character. -/
def replaceSpaces (x : String) : String :=
  String.mk (x.data.map (fun c => if c = ' ' then '_' else c))

/-- `location.lower().replace(" ", "_")` — the key normalization used by
`get_properties_by_location` and the signal handlers. -/
def normalizeLocation (location : String) : String :=
  replaceSpaces (pyLower location)

/-- The cache key `f'properties_location_{location.lower().replace(" ", "_")}'`. -/
def locationKey (location : String) : String :=
  "properties_location_" ++ normalizeLocation location

/-- Does `needle` occur at the head of `hay`? (helper for substring match). -/
def headMatch : List Char → List Char → Bool
  | _, [] => true
  | [], _ :: _ => false
  | h :: hs, n :: ns => h = n && headMatch hs ns

/-- Does `needle` occur anywhere inside `hay`? -/
def hasSub : List Char → List Char → Bool
  | hay, needle =>
    match hay with
    | [] => needle.isEmpty
    | _ :: t => headMatch hay needle || hasSub t needle

/-- Django's `location__icontains=q`: case-insensitive substring match of
`q` against a row's `location`. -/
def icontains (rowLoc q : String) : Bool :=
  hasSub (pyLower rowLoc).data (pyLower q).data

/-- `utils.get_properties_by_location(location, cache_timeout)`: key is
`locationKey location`; on a non-None cached value return it; on a miss
run the `location__icontains` filter ordered by `-created_at`, materialize,
cache under the same key with the given timeout (1800 by default at every
call site), and return. -/
def get_properties_by_location (s : Store) (db : DB) (location : String)
    (cache_timeout : Nat) : GetR :=
  match s.get (locationKey location) with
  | some v => ⟨v, s, 0⟩
  | none =>
      let properties := ordByCreatedDesc (db.filter (fun p => icontains p.location location))
      ⟨CVal.props properties,
       s.set (locationKey location) (CVal.props properties) cache_timeout, 1⟩

/-- `utils.get_property_count()`: key `'property_count'`; on a non-None
cached value return it; on a miss run `Property.objects.count()`, cache the
count with TTL 3600, and return it. -/
def get_property_count (s : Store) (db : DB) : GetR :=
  match s.get "property_count" with
  | some v => ⟨v, s, 0⟩
  | none =>
      let count := db.length
      ⟨CVal.count count, s.set "property_count" (CVal.count count) 3600, 1⟩

/-- `signals.invalidate_property_cache_on_save` (`post_save` receiver):
delete `'all_properties'`; if the saved row's `location` is truthy
(non-empty string), delete its location key; delete `'property_count'`.
Each `cache.delete` is best-effort — its boolean result is only logged. -/
def invalidate_property_cache_on_save (s : Store) (inst : Property) : Store :=
  let s1 := (s.del "all_properties").1
  let s2 := if inst.location ≠ "" then (s1.del (locationKey inst.location)).1 else s1
  (s2.del "property_count").1

/-- `signals.invalidate_property_cache_on_delete` (`post_delete` receiver):
same three best-effort deletions as the save handler. -/
def invalidate_property_cache_on_delete (s : Store) (inst : Property) : Store :=
  let s1 := (s.del "all_properties").1
  let s2 := if inst.location ≠ "" then (s1.del (locationKey inst.location)).1 else s1
  (s2.del "property_count").1

/-- `signals.clear_all_property_caches()`: delete `'all_properties'` and
`'property_count'`; location keys are not enumerated. -/
def clear_all_property_caches (s : Store) : Store :=
  ((s.del "all_properties").1.del "property_count").1

/-- `utils.clear_properties_cache()`: delete `'all_properties'` and report
whether it was present. -/
def clear_properties_cache (s : Store) : Store × Bool :=
  s.del "all_properties"

/-- The classification bands logged by `get_redis_cache_metrics`:
`>= 80` excellent, `>= 60` good, `>= 40` fair, else poor. -/
inductive CacheBand where
  | excellent
  | good
  | fair
  | poor
deriving Repr, DecidableEq

/-- The dictionary returned by `utils.get_redis_cache_metrics()`. The
`error` field is present (`some`) exactly on the exception path. Python
float arithmetic is carried over `ℚ`. -/
structure Metrics where
  error : Option String
  keyspace_hits : Nat
  keyspace_misses : Nat
  total_requests : Nat
  hit_ratio : ℚ
deriving Repr, DecidableEq

/-- The `if hit_ratio >= 80 ... elif >= 60 ... elif >= 40 ... else` chain
of `get_redis_cache_metrics` (logged interpretation of the ratio). -/
def classify_hit_ratio (r : ℚ) : CacheBand :=
  if 80 ≤ r then CacheBand.excellent
  else if 60 ≤ r then CacheBand.good
  else if 40 ≤ r then CacheBand.fair
  else CacheBand.poor

/-- `utils.get_redis_cache_metrics()`. The Redis round trip
(`get_redis_connection` + `info('stats')`) is abstracted as an
`Except`-valued input: `ok (keyspace_hits, keyspace_misses)` when the
store answers, `error e` when any step of the `try` block raises. On
success: `total = hits + misses`, `hit_ratio = hits/total*100` guarded
against division by zero. On failure: an error dictionary with zeroed
counters, swallowing the exception. -/
def get_redis_cache_metrics (info : Except String (Nat × Nat)) : Metrics :=
  match info with
  | Except.ok (keyspace_hits, keyspace_misses) =>
      let total_requests := keyspace_hits + keyspace_misses
      let hit_ratio : ℚ :=
        if 0 < total_requests then ((keyspace_hits : ℚ) / (total_requests : ℚ)) * 100
        else 0
      ⟨none, keyspace_hits, keyspace_misses, total_requests, hit_ratio⟩
  | Except.error e => ⟨some e, 0, 0, 0, 0⟩

/-- Exceptions a view body can raise. -/
inductive PyError where
  | nameError : String → PyError
  | typeError : String → PyError
deriving Repr, DecidableEq

/-- One serialized property of the `property_list` JSON payload:
`id, title, description, price (str of the decimal, fixed-point),
location, created_at (isoformat or null)`. The timestamp that `isoformat`
renders is kept as a number; `none` is JSON null. -/
structure PropJson where
  id : Nat
  title : String
  description : String
  price : String
  location : String
  created_at : Option Nat
deriving Repr, DecidableEq

/-- Zero-pad a remainder below 100 to two digits. -/
def twoDigits (n : Nat) : String :=
  if n < 10 then "0" ++ toString n else toString n

/-- `str(prop.price)` for a `DecimalField(decimal_places=2)` value held as
cents: fixed-point with exactly two fractional digits. -/
def decimalStr (cents : Int) : String :=
  (if cents < 0 then "-" else "")
    ++ toString (cents.natAbs / 100) ++ "." ++ twoDigits (cents.natAbs % 100)

/-- The dict comprehension of `views.property_list`: serialize one row.
`created_at` is a NOT NULL column, so the `if prop.created_at` guard takes
the truthy branch and the isoformat value is emitted. -/
def serializeProp (p : Property) : PropJson :=
  ⟨p.id, p.title, p.description, decimalStr p.price, p.location, some p.created_at⟩

/-- A view response: the `JsonResponse({'properties': ..., 'count': ...})`
shape, or a rendered HTML template. -/
inductive HttpResponse where
  | json : List PropJson → Nat → HttpResponse
  | htmlTemplate : String → HttpResponse
deriving Repr, DecidableEq

/-- `views.property_list`: call `get_all_properties`, serialize each row,
return the JSON object with the row count. Iterating a non-list cached
value would raise `TypeError`. (The surrounding `@cache_page(900)` response
cache is a framework layer outside this embedding.) -/
def property_list (s : Store) (db : DB) : Except PyError (HttpResponse × Store) :=
  let r := get_all_properties s db
  match r.val with
  | CVal.props ps =>
      let properties_data := ps.map serializeProp
      Except.ok (HttpResponse.json properties_data properties_data.length, r.store)
  | CVal.count _ => Except.error (PyError.typeError "int object is not iterable")

/-- `views.property_list_no_cache`: queries the rows and the count, builds
a template context, then evaluates `render(request, ...)` — but `views.py`
never imports `render` (its imports are `JsonResponse`, `cache_page`,
`Property` and the two utils), so the call raises `NameError` before any
response is produced. -/
def property_list_no_cache (db : DB) : Except PyError HttpResponse :=
  let _properties := ordByCreatedDesc db
  let _property_count := db.length
  Except.error (PyError.nameError "name render is not defined")

/-- Two character sequences differ only in letter case: same length and
pointwise equal after lower-casing. -/
def caseVariantChars : List Char → List Char → Bool
  | [], [] => true
  | c :: cs, d :: ds => (c.toLower == d.toLower) && caseVariantChars cs ds
  | _, _ => false

/-- A store that is reachable and holds nothing — the state right after
`FLUSHALL` or on first boot. -/
def sEmpty : Store := ⟨true, fun _ => none⟩

/-- A store whose Redis backend is unreachable, regardless of what it
holds. -/
def sDown : Store := ⟨false, fun _ => some (CVal.count 3, 100)⟩

/-- Sample row in Miami. -/
def pMiami : Property :=
  ⟨1, "Beach House", "ocean views", 12500050, "Miami, FL", 5⟩

/-- Sample row in Austin. -/
def pAustin : Property :=
  ⟨2, "Ranch", "wide open spaces", 9900000, "Austin", 3⟩

/-- A reachable store holding exactly the entry cached by
`get_properties_by_location("Miami")`. -/
def sMiamiQuery : Store :=
  ⟨true, fun k =>
    if k = locationKey "Miami" then some (CVal.props [pMiami], 1800) else none⟩

/-! ### Helper lemmas about the store operations and the key space -/

theorem Store.del_fst_avail (s : Store) (k : String) :
    ((s.del k).1).avail = s.avail := by
  cases hs : s.avail <;> simp [Store.del, hs]

theorem Store.set_avail (s : Store) (k : String) (v : CVal) (t : Nat) :
    (s.set k v t).avail = s.avail := by
  cases hs : s.avail <;> simp [Store.set, hs]

theorem Store.del_fst_map (s : Store) (h : s.avail = true) (k k2 : String) :
    ((s.del k).1).map k2 = if k2 = k then none else s.map k2 := by
  simp [Store.del, h]

theorem Store.set_map (s : Store) (h : s.avail = true) (k : String) (v : CVal)
    (t : Nat) (k2 : String) :
    (s.set k v t).map k2 = if k2 = k then some (v, t) else s.map k2 := by
  simp [Store.set, h]

theorem locationKey_ne_all_properties (q : String) :
    locationKey q ≠ "all_properties" := by
  intro hEq
  have hl := congrArg String.length hEq
  rw [locationKey, String.length_append] at hl
  have h20 : ("properties_location_" : String).length = 20 := rfl
  have h14 : ("all_properties" : String).length = 14 := rfl
  omega

theorem locationKey_ne_property_count (q : String) :
    locationKey q ≠ "property_count" := by
  intro hEq
  have hl := congrArg String.length hEq
  rw [locationKey, String.length_append] at hl
  have h20 : ("properties_location_" : String).length = 20 := rfl
  have h14 : ("property_count" : String).length = 14 := rfl
  omega

theorem locationKey_inj (a b : String) (h : locationKey a = locationKey b) :
    normalizeLocation a = normalizeLocation b := by
  have hd := congrArg String.data h
  rw [locationKey, locationKey, String.data_append, String.data_append] at hd
  exact String.ext (List.append_cancel_left hd)

theorem caseVariantChars_map_toLower :
    ∀ as bs : List Char, caseVariantChars as bs = true →
      as.map Char.toLower = bs.map Char.toLower := by
  intro as
  induction as with
  | nil =>
      intro bs h
      cases bs with
      | nil => rfl
      | cons d ds => simp [caseVariantChars] at h
  | cons c cs ih =>
      intro bs h
      cases bs with
      | nil => simp [caseVariantChars] at h
      | cons d ds =>
          rw [caseVariantChars, Bool.and_eq_true] at h
          simp only [List.map, beq_iff_eq.mp h.1, ih ds h.2]

theorem invalidate_delete_eq_save (s : Store) (p : Property) :
    invalidate_property_cache_on_delete s p = invalidate_property_cache_on_save s p := rfl

theorem invalidate_save_map (s : Store) (p : Property) (h : s.avail = true) (k : String) :
    (invalidate_property_cache_on_save s p).map k =
      if k = "all_properties" ∨ k = "property_count" ∨
          (¬ p.location = "" ∧ k = locationKey p.location) then none
      else s.map k := by
  by_cases hl : p.location = "" <;>
    by_cases h1 : k = "all_properties" <;>
      by_cases h2 : k = "property_count" <;>
        by_cases h3 : k = locationKey p.location <;>
          simp [invalidate_property_cache_on_save, Store.del, h, hl, h1, h2, h3,
            locationKey_ne_all_properties, locationKey_ne_property_count]

theorem invalidate_save_avail (s : Store) (p : Property) :
    (invalidate_property_cache_on_save s p).avail = s.avail := by
  cases hs : s.avail <;> by_cases hl : p.location = "" <;>
    simp [invalidate_property_cache_on_save, Store.del, hs, hl]

theorem clear_all_map (s : Store) (h : s.avail = true) (k : String) :
    (clear_all_property_caches s).map k =
      if k = "all_properties" ∨ k = "property_count" then none else s.map k := by
  by_cases h1 : k = "all_properties" <;> by_cases h2 : k = "property_count" <;>
    simp [clear_all_property_caches, Store.del, h, h1, h2]

theorem clear_all_avail (s : Store) :
    (clear_all_property_caches s).avail = s.avail := by
  cases hs : s.avail <;> simp [clear_all_property_caches, Store.del, hs]

theorem gpbl_avail (s : Store) (db : DB) (q : String) (t : Nat) :
    ((get_properties_by_location s db q t).store).avail = s.avail := by
  cases hm : s.get (locationKey q) with
  | none => simp [get_properties_by_location, hm, Store.set_avail]
  | some v => simp [get_properties_by_location, hm]

theorem gpbl_key_present (s : Store) (db : DB) (q : String) (t : Nat)
    (h : s.avail = true) :
    ∃ e, ((get_properties_by_location s db q t).store).map (locationKey q)
      = some e := by
  cases hm : s.get (locationKey q) with
  | none =>
      refine ⟨(CVal.props (ordByCreatedDesc
        (db.filter (fun p => icontains p.location q))), t), ?_⟩
      simp [get_properties_by_location, hm, Store.set_map, h]
  | some v =>
      simp only [Store.get, h, if_true] at hm
      obtain ⟨e, he, _⟩ := Option.map_eq_some'.mp hm
      exact ⟨e, by simp [get_properties_by_location, Store.get, h, he]⟩

/-! ### The claims -/

/-- C1: on a reachable store, `get_all_properties` returns a cached value
under `'all_properties'` as-is with the store untouched and zero database
queries; on a miss it returns all rows ordered descending by `created_at`
as a materialized list, issues exactly one database query, stores that
list under `'all_properties'` with TTL 3600 seconds, and touches no other
key. -/
theorem C1_get_all_properties_cache_aside (s : Store) (db : DB)
    (h : s.avail = true) :
    (∀ v ttl, s.map "all_properties" = some (v, ttl) →
        (get_all_properties s db).val = v ∧
        (get_all_properties s db).store = s ∧
        (get_all_properties s db).dbQueries = 0) ∧
    (s.map "all_properties" = none →
        (get_all_properties s db).val = CVal.props (ordByCreatedDesc db) ∧
        (get_all_properties s db).dbQueries = 1 ∧
        (get_all_properties s db).store.map "all_properties"
          = some (CVal.props (ordByCreatedDesc db), 3600) ∧
        ∀ k, k ≠ "all_properties" →
          (get_all_properties s db).store.map k = s.map k) := by
  constructor
  · intro v ttl hv
    refine ⟨?_, ?_, ?_⟩ <;> simp [get_all_properties, Store.get, h, hv]
  · intro hn
    refine ⟨?_, ?_, ?_, ?_⟩
    · simp [get_all_properties, Store.get, h, hn]
    · simp [get_all_properties, Store.get, h, hn]
    · simp [get_all_properties, Store.get, h, hn, Store.set_map]
    · intro k hk
      simp [get_all_properties, Store.get, h, hn, Store.set_map, hk]

/-- C1 witness: on the empty reachable store with one row in the
database, the miss path returns that row and issues one query. -/
theorem C1_witness_empty_store :
    sEmpty.avail = true ∧ sEmpty.map "all_properties" = none ∧
    (get_all_properties sEmpty [pMiami]).val = CVal.props [pMiami] ∧
    (get_all_properties sEmpty [pMiami]).dbQueries = 1 := by
  have h := (C1_get_all_properties_cache_aside sEmpty [pMiami] rfl).2 rfl
  exact ⟨rfl, rfl, by simpa [ordByCreatedDesc] using h.1, h.2.1⟩

/-- C2: after a save or a delete of a row, the handler leaves
`'all_properties'` and `'property_count'` absent unconditionally, leaves
the row's location key absent exactly when its `location` is non-empty,
and when the location is empty deletes nothing but the two unconditional
keys. Deleting an absent key is not an error: both handlers are total and
`Store.del` merely reports `false` for an absent key. -/
theorem C2_invalidation_deletes (s : Store) (p : Property)
    (h : s.avail = true) :
    ((invalidate_property_cache_on_save s p).map "all_properties" = none ∧
     (invalidate_property_cache_on_save s p).map "property_count" = none ∧
     (p.location ≠ "" →
        (invalidate_property_cache_on_save s p).map (locationKey p.location) = none) ∧
     (p.location = "" → ∀ k, k ≠ "all_properties" → k ≠ "property_count" →
        (invalidate_property_cache_on_save s p).map k = s.map k)) ∧
    ((invalidate_property_cache_on_delete s p).map "all_properties" = none ∧
     (invalidate_property_cache_on_delete s p).map "property_count" = none ∧
     (p.location ≠ "" →
        (invalidate_property_cache_on_delete s p).map (locationKey p.location) = none) ∧
     (p.location = "" → ∀ k, k ≠ "all_properties" → k ≠ "property_count" →
        (invalidate_property_cache_on_delete s p).map k = s.map k)) := by
  have hmain :
      (invalidate_property_cache_on_save s p).map "all_properties" = none ∧
      (invalidate_property_cache_on_save s p).map "property_count" = none ∧
      (p.location ≠ "" →
        (invalidate_property_cache_on_save s p).map (locationKey p.location) = none) ∧
      (p.location = "" → ∀ k, k ≠ "all_properties" → k ≠ "property_count" →
        (invalidate_property_cache_on_save s p).map k = s.map k) := by
    refine ⟨?_, ?_, ?_, ?_⟩
    · simp [invalidate_save_map s p h]
    · simp [invalidate_save_map s p h]
    · intro hl
      simp [invalidate_save_map s p h, hl]
    · intro hl k h1 h2
      simp [invalidate_save_map s p h, hl, h1, h2]
  exact ⟨hmain, by rw [invalidate_delete_eq_save]; exact hmain⟩

/-- C2 witness: saving or deleting the Miami row against the empty store
(every key already absent) raises no error and leaves the three keys
absent. -/
theorem C2_witness_miami :
    sEmpty.avail = true ∧ pMiami.location ≠ "" ∧
    (invalidate_property_cache_on_save sEmpty pMiami).map
        (locationKey pMiami.location) = none ∧
    (invalidate_property_cache_on_delete sEmpty pMiami).map
        "all_properties" = none := by
  have h := C2_invalidation_deletes sEmpty pMiami rfl
  exact ⟨rfl, by decide, h.1.2.2.1 (by decide), h.2.1⟩

/-- C3: when the cache store is unreachable, `get_all_properties` still
returns the repository rows (ordered, materialized, one database query),
and both invalidation handlers return without raising, leaving the store
exactly as it was. The unreachable-store semantics of the cache boundary
is modelled from the spec (`Store.get`/`Store.set`/`Store.del` on
`avail = false`), the backend configuration not being part of `src/`. -/
theorem C3_cache_outage_does_not_block (s : Store) (db : DB) (p : Property)
    (h : s.avail = false) :
    (get_all_properties s db).val = CVal.props (ordByCreatedDesc db) ∧
    (get_all_properties s db).dbQueries = 1 ∧
    invalidate_property_cache_on_save s p = s ∧
    invalidate_property_cache_on_delete s p = s := by
  have hget : s.get "all_properties" = none := by simp [Store.get, h]
  refine ⟨?_, ?_, ?_, ?_⟩
  · simp [get_all_properties, hget]
  · simp [get_all_properties, hget]
  · by_cases hl : p.location = "" <;>
      simp [invalidate_property_cache_on_save, Store.del, h, hl]
  · rw [invalidate_delete_eq_save]
    by_cases hl : p.location = "" <;>
      simp [invalidate_property_cache_on_save, Store.del, h, hl]

/-- C3 witness: with Redis down, the read returns the database row and a
save-triggered invalidation is a no-op rather than an error. -/
theorem C3_witness_down_store :
    sDown.avail = false ∧
    (get_all_properties sDown [pMiami]).val = CVal.props [pMiami] ∧
    invalidate_property_cache_on_save sDown pAustin = sDown := by
  have h := C3_cache_outage_does_not_block sDown [pMiami] pAustin rfl
  exact ⟨rfl, by simpa [ordByCreatedDesc] using h.1, h.2.2.1⟩

/-- C4 (code bug in `views.property_list_no_cache`): the claim asks for a
JSON response of the `property_list` shape, but the handler evaluates the
name `render`, which `views.py` never imports, so every request raises
`NameError` and no response — JSON or otherwise — is ever produced. -/
theorem C4_no_cache_view_raises (db : DB) :
    property_list_no_cache db
      = Except.error (PyError.nameError "name render is not defined") ∧
    ∀ r : HttpResponse, property_list_no_cache db ≠ Except.ok r := by
  refine ⟨rfl, ?_⟩
  intro r
  simp [property_list_no_cache]

/-- C5: `get_redis_cache_metrics` computes `total = hits + misses` and
`hit_ratio = hits/total*100` when `total > 0`, `0` when `total = 0`
(no division error: the function is total); with 80 hits and 20 misses
the ratio is exactly 80 and the logged band is `excellent` (the
`>= 80` band); with 0 total requests the ratio is 0. -/
theorem C5_metrics_hit_ratio (hits misses : Nat) :
    (get_redis_cache_metrics (Except.ok (hits, misses))).total_requests
      = hits + misses ∧
    (0 < hits + misses →
      (get_redis_cache_metrics (Except.ok (hits, misses))).hit_ratio
        = (hits : ℚ) / ((hits + misses : ℕ) : ℚ) * 100) ∧
    (hits + misses = 0 →
      (get_redis_cache_metrics (Except.ok (hits, misses))).hit_ratio = 0) ∧
    (get_redis_cache_metrics (Except.ok (80, 20))).hit_ratio = 80 ∧
    classify_hit_ratio (get_redis_cache_metrics (Except.ok (80, 20))).hit_ratio
      = CacheBand.excellent ∧
    (get_redis_cache_metrics (Except.ok (0, 0))).hit_ratio = 0 := by
  have h80 : (get_redis_cache_metrics (Except.ok (80, 20))).hit_ratio = 80 := by
    norm_num [get_redis_cache_metrics]
  refine ⟨rfl, ?_, ?_, h80, ?_, ?_⟩
  · intro h
    simp [get_redis_cache_metrics, h]
  · intro h
    simp [get_redis_cache_metrics, h]
  · rw [h80]
    norm_num [classify_hit_ratio]
  · norm_num [get_redis_cache_metrics]

/-- C5 witness: the positive-total branch evaluated at 80 hits and 20
misses. -/
theorem C5_witness_eighty_twenty :
    0 < 80 + 20 ∧
    (get_redis_cache_metrics (Except.ok (80, 20))).hit_ratio
      = (80 : ℚ) / ((80 + 20 : ℕ) : ℚ) * 100 :=
  ⟨by decide, (C5_metrics_hit_ratio 80 20).2.1 (by decide)⟩

/-- C6: when the stats fetch raises, `get_redis_cache_metrics` swallows
the exception and returns a dictionary carrying the error indicator and
zeroed counters (`hits = misses = total = 0`, `hit_ratio = 0`). -/
theorem C6_metrics_error_result (e : String) :
    get_redis_cache_metrics (Except.error e) = ⟨some e, 0, 0, 0, 0⟩ ∧
    (get_redis_cache_metrics (Except.error e)).error ≠ none :=
  ⟨rfl, by simp [get_redis_cache_metrics]⟩

/-- C7: two location strings that differ only in letter case (same
length, pointwise equal after lower-casing) produce the same
`properties_location_*` cache key; in particular `"Miami, FL"` and
`"miami, fl"` resolve to the same key, and a
`get_properties_by_location` read with a case-variant of an
already-cached query is a pure cache hit (zero database queries). -/
theorem C7_location_key_case_insensitive :
    (∀ a b : String, caseVariantChars a.data b.data = true →
        locationKey a = locationKey b) ∧
    locationKey "Miami, FL" = locationKey "miami, fl" ∧
    (∀ s db (a b : String) t1 t2, s.avail = true →
        caseVariantChars a.data b.data = true →
        (get_properties_by_location ((get_properties_by_location s db a t1).store)
            db b t2).dbQueries = 0) := by
  have hGen : ∀ a b : String, caseVariantChars a.data b.data = true →
      locationKey a = locationKey b := by
    intro a b hcv
    have hm := caseVariantChars_map_toLower a.data b.data hcv
    simp [locationKey, normalizeLocation, replaceSpaces, pyLower, hm]
  refine ⟨hGen, hGen _ _ (by decide), ?_⟩
  intro s db a b t1 t2 hs hcv
  obtain ⟨e, he⟩ := gpbl_key_present s db a t1 hs
  have havail : ((get_properties_by_location s db a t1).store).avail = true := by
    rw [gpbl_avail]
    exact hs
  have hget : ((get_properties_by_location s db a t1).store).get (locationKey b)
      = some e.1 := by
    rw [← hGen a b hcv]
    simp [Store.get, havail, he]
  revert hget
  generalize (get_properties_by_location s db a t1).store = s2
  intro hget
  simp [get_properties_by_location, hget]

/-- C7 witness: the two Miami spellings, checked concretely. -/
theorem C7_witness_miami :
    caseVariantChars "Miami, FL".data "miami, fl".data = true ∧
    locationKey "Miami, FL" = locationKey "miami, fl" :=
  ⟨by decide,
   C7_location_key_case_insensitive.1 "Miami, FL" "miami, fl" (by decide)⟩

/-- C8: `clear_all_property_caches` empties exactly `'all_properties'`
and `'property_count'` — every other key, location keys included, keeps
its binding — and a second call on the already-cleared store is
error-free and changes nothing (idempotence). -/
theorem C8_clear_all_exact_and_idempotent (s : Store) (h : s.avail = true) :
    (clear_all_property_caches s).map "all_properties" = none ∧
    (clear_all_property_caches s).map "property_count" = none ∧
    (∀ k, k ≠ "all_properties" → k ≠ "property_count" →
        (clear_all_property_caches s).map k = s.map k) ∧
    clear_all_property_caches (clear_all_property_caches s)
      = clear_all_property_caches s := by
  have h2 : (clear_all_property_caches s).avail = true := by
    rw [clear_all_avail]
    exact h
  refine ⟨?_, ?_, ?_, ?_⟩
  · simp [clear_all_map s h]
  · simp [clear_all_map s h]
  · intro k h1 hk2
    simp [clear_all_map s h, h1, hk2]
  · ext k
    · rw [clear_all_avail, clear_all_avail]
    · by_cases h1 : k = "all_properties" <;> by_cases hk2 : k = "property_count" <;>
        simp [clear_all_map _ h2, clear_all_map _ h, h1, hk2]

/-- C8 witness: clearing the empty reachable store twice. -/
theorem C8_witness_empty :
    sEmpty.avail = true ∧
    (clear_all_property_caches sEmpty).map "all_properties" = none ∧
    clear_all_property_caches (clear_all_property_caches sEmpty)
      = clear_all_property_caches sEmpty := by
  have h := C8_clear_all_exact_and_idempotent sEmpty rfl
  exact ⟨rfl, h.1, h.2.2.2⟩

/-- C9 (frame): a save- or delete-triggered invalidation for a row with
location `L` can delete only `'all_properties'`, `'property_count'` and
`locationKey L`; any other key keeps its exact binding — in particular a
key cached by `get_properties_by_location` for a query string whose
normalization differs from `normalize(L)` (such as a proper substring of
`L` that still matches rows) survives the write. -/
theorem C9_invalidation_frame (s : Store) (p : Property) (h : s.avail = true) :
    (∀ k, k ≠ "all_properties" → k ≠ "property_count" →
        k ≠ locationKey p.location →
        (invalidate_property_cache_on_save s p).map k = s.map k ∧
        (invalidate_property_cache_on_delete s p).map k = s.map k) ∧
    (∀ q, normalizeLocation q ≠ normalizeLocation p.location →
        (invalidate_property_cache_on_save s p).map (locationKey q)
          = s.map (locationKey q) ∧
        (invalidate_property_cache_on_delete s p).map (locationKey q)
          = s.map (locationKey q)) := by
  have hframe : ∀ k, k ≠ "all_properties" → k ≠ "property_count" →
      k ≠ locationKey p.location →
      (invalidate_property_cache_on_save s p).map k = s.map k := by
    intro k h1 h2 h3
    simp [invalidate_save_map s p h, h1, h2, h3]
  refine ⟨fun k h1 h2 h3 =>
    ⟨hframe k h1 h2 h3, by rw [invalidate_delete_eq_save]; exact hframe k h1 h2 h3⟩,
    fun q hq => ?_⟩
  have hk := hframe (locationKey q) (locationKey_ne_all_properties q)
    (locationKey_ne_property_count q)
    (fun hEq => hq (locationKey_inj q p.location hEq))
  exact ⟨hk, by rw [invalidate_delete_eq_save]; exact hk⟩

/-- C9 witness: the entry cached for the query `"Miami"` survives saving
a row whose location is `"Miami, FL"` even though that row matches the
query. -/
theorem C9_witness_substring_query :
    sMiamiQuery.avail = true ∧
    normalizeLocation "Miami" ≠ normalizeLocation pMiami.location ∧
    icontains pMiami.location "Miami" = true ∧
    (invalidate_property_cache_on_save sMiamiQuery pMiami).map (locationKey "Miami")
      = some (CVal.props [pMiami], 1800) := by
  have h := ((C9_invalidation_frame sMiamiQuery pMiami rfl).2 "Miami" (by decide)).1
  refine ⟨rfl, by decide, by decide, ?_⟩
  rw [h]
  simp [sMiamiQuery]

/-- C10: a cached falsy value is a hit, because the code compares the
cached value against `None` and not against truthiness: once
`get_property_count` has cached the count `0`, a further call returns `0`
from the cache with no database query, and once `get_all_properties` has
cached the empty list, a further call returns `[]` from the cache with no
database query. -/
theorem C10_falsy_values_are_hits (s : Store) (h : s.avail = true)
    (hc : s.map "property_count" = none) (ha : s.map "all_properties" = none) :
    (get_property_count s []).val = CVal.count 0 ∧
    get_property_count ((get_property_count s []).store) []
      = ⟨CVal.count 0, (get_property_count s []).store, 0⟩ ∧
    (get_all_properties s []).val = CVal.props [] ∧
    get_all_properties ((get_all_properties s []).store) []
      = ⟨CVal.props [], (get_all_properties s []).store, 0⟩ := by
  have hg1 : get_property_count s []
      = ⟨CVal.count 0, s.set "property_count" (CVal.count 0) 3600, 1⟩ := by
    simp [get_property_count, Store.get, h, hc]
  have hs1avail : (s.set "property_count" (CVal.count 0) 3600).avail = true := by
    rw [Store.set_avail]
    exact h
  have hs1map : (s.set "property_count" (CVal.count 0) 3600).map "property_count"
      = some (CVal.count 0, 3600) := by
    simp [Store.set_map, h]
  have hg3 : get_all_properties s []
      = ⟨CVal.props [], s.set "all_properties" (CVal.props []) 3600, 1⟩ := by
    simp [get_all_properties, Store.get, h, ha, ordByCreatedDesc]
  have hs3avail : (s.set "all_properties" (CVal.props []) 3600).avail = true := by
    rw [Store.set_avail]
    exact h
  have hs3map : (s.set "all_properties" (CVal.props []) 3600).map "all_properties"
      = some (CVal.props [], 3600) := by
    simp [Store.set_map, h]
  refine ⟨by rw [hg1], ?_, by rw [hg3], ?_⟩
  · rw [hg1]
    simp [get_property_count, Store.get, hs1avail, hs1map]
  · rw [hg3]
    simp [get_all_properties, Store.get, hs3avail, hs3map]

/-- C10 witness: the empty store and the empty database. -/
theorem C10_witness_zero_count :
    sEmpty.avail = true ∧ sEmpty.map "property_count" = none ∧
    sEmpty.map "all_properties" = none ∧
    (get_property_count sEmpty []).val = CVal.count 0 ∧
    get_property_count ((get_property_count sEmpty []).store) []
      = ⟨CVal.count 0, (get_property_count sEmpty []).store, 0⟩ := by
  have h := C10_falsy_values_are_hits sEmpty rfl rfl rfl
  exact ⟨rfl, rfl, rfl, h.1, h.2.1⟩
